import Mathlib

/-!
Verification development for the spotify-mcp repository: a shallow embedding of
its credential/token lifecycle, device resolution and tool-call dispatch layer
(files `src/spotify_mcp/creds_manager.py`, `src/spotify_mcp/spotify_api.py`,
`src/spotify_mcp/server.py`), with theorems settling the specification claims.

Python values are embedded as an explicit inductive (`PyVal`), Python exceptions
as `PyExn`, and every outbound remote call made by the client is recorded in a
trace, so that frame claims ("no remote call is issued") are statable.  Remote
responses and the behaviour of external collaborators (the remote Web API, the
OAuth helper library, `json.loads`) are supplied by an `Oracle` record: one
invocation is modelled against one fixed oracle.
-/

namespace SpotifyMcp

/-- Embedding of the Python values that flow through the tool-call layer:
`None`, strings, integers, booleans, and lists of strings (the only list shape
the tool surface carries, namely `track_ids`). -/
inductive PyVal : Type
| none
| str (s : String)
| int (n : Int)
| bool (b : Bool)
| strlist (xs : List String)
deriving DecidableEq, Repr

/-- Python truthiness (`if x:`) for the embedded values: `None`, `""`, `0`,
`False` and `[]` are falsy, everything else truthy. -/
def pyTruthy : PyVal → Bool
| .none => false
| .str s => !s.isEmpty
| .int n => n != 0
| .bool b => b
| .strlist xs => !xs.isEmpty

/-- Python `str()` rendering used by the f-strings in the dispatcher messages. -/
def pyStr : PyVal → String
| .none => "None"
| .str s => s
| .int n => toString n
| .bool true => "True"
| .bool false => "False"
| .strlist xs => "[" ++ String.intercalate ", " xs ++ "]"

/-- The Python exception classes that occur in the embedded layer.
`spotifyException` is the remote-API error class raised by the client library
(authorization failures from the remote API surface through it);
`connectionError` is the builtin `ConnectionError`; the remaining constructors
cover the builtin exceptions the code can raise. -/
inductive PyExn : Type
| spotifyException (msg : String)
| connectionError (msg : String)
| valueError (msg : String)
| typeError (msg : String)
| attributeError (msg : String)
| assertionError (msg : String)
| otherException (msg : String)
deriving DecidableEq, Repr

/-- The message text carried by an exception (Python `str(e)`). -/
def PyExn.msg : PyExn → String
| .spotifyException m => m
| .connectionError m => m
| .valueError m => m
| .typeError m => m
| .attributeError m => m
| .assertionError m => m
| .otherException m => m

/-- Classification of exception kinds: the builtin `ConnectionError` is the
Python network-error class (an `OSError` subclass raised on failed
connections), so it counts as a network error kind. -/
def isNetworkErrorKind : PyExn → Bool
| .connectionError _ => true
| _ => false

/-- Classification of exception kinds: authorization failures of the remote
Web API surface as `SpotifyException` (non-success HTTP status from the
client library), so that class is the authorization error kind. -/
def isAuthorizationErrorKind : PyExn → Bool
| .spotifyException _ => true
| _ => false

instance {ε α : Type} [DecidableEq ε] [DecidableEq α] : DecidableEq (Except ε α) :=
  fun a b =>
    match a, b with
    | .ok x, .ok y =>
      match decEq x y with
      | isTrue h => isTrue (congrArg Except.ok h)
      | isFalse h => isFalse (fun hc => h (Except.ok.inj hc))
    | .error x, .error y =>
      match decEq x y with
      | isTrue h => isTrue (congrArg Except.error h)
      | isFalse h => isFalse (fun hc => h (Except.error.inj hc))
    | .ok _, .error _ => isFalse (fun hc => Except.noConfusion hc)
    | .error _, .ok _ => isFalse (fun hc => Except.noConfusion hc)

/-- A playback device as consumed by the resolver: the fields of the remote
device object the source reads (`id`, `name`, `is_active`). -/
structure Device : Type where
  id : Option String
  name : String
  isActive : Bool
deriving DecidableEq, Repr

/-- `Client._get_candidate_device` (spotify_api.py): raises
`ConnectionError("No active device. Is Spotify open?")` on an empty device
list; otherwise returns the first device reporting `is_active`, and if none is
active, the first device of the list. -/
def getCandidateDevice (devices : List Device) : Except PyExn Device :=
  match devices with
  | [] => .error (.connectionError "No active device. Is Spotify open?")
  | d :: ds =>
    match (d :: ds).find? (fun x => x.isActive) with
    | some dev => .ok dev
    | none => .ok d

/-! ## Credential store (creds_manager.py) -/

/-- The credential record held by `CredsManager` (creds_manager.py): the seven
keys of the durable JSON file.  `token_expires_at` is an epoch timestamp,
modelled as an integer. -/
structure Creds : Type where
  client_id : Option String
  client_secret : Option String
  redirect_uri : Option String
  access_token : Option String
  refresh_token : Option String
  device_name : Option String
  token_expires_at : Option Int
deriving DecidableEq, Repr

/-- The all-`None` record `_load_credentials` starts from. -/
def emptyCreds : Creds :=
  { client_id := none, client_secret := none, redirect_uri := none,
    access_token := none, refresh_token := none, device_name := none,
    token_expires_at := none }

/-- The state of the durable credentials file: absent, present but unreadable
(`json.load` raises; the source swallows the error and proceeds), or present
with its declared non-null values (a key that is missing or JSON `null` in the
file is `none` here, matching the `file_creds.get(key) is not None` check). -/
inductive FileState : Type
| absent
| unreadable (msg : String)
| present (fc : Creds)
deriving DecidableEq, Repr

/-- The environment variables `_load_credentials` consults, `none` when unset. -/
structure EnvVars : Type where
  spotifyClientId : Option String
  spotifyClientSecret : Option String
  spotifyRedirectUri : Option String
  spotifyAccessToken : Option String
  spotifyRefreshToken : Option String
  spotifyDeviceName : Option String
deriving DecidableEq, Repr

/-- The `if env_value:` guard of the source: an environment value is used as a
fallback only when it is set and non-empty (Python truthiness of the string). -/
def envFallbackVal : Option String → Option String
| some s => if s = "" then none else some s
| none => none

/-- Per-field merge of `_load_credentials`: the file value wins when present
(non-null), otherwise the environment fallback applies. -/
def fieldLoad (fileVal : Option String) (envVal : Option String) : Option String :=
  match fileVal with
  | some v => some v
  | none => envFallbackVal envVal

/-- `CredsManager._load_credentials` (creds_manager.py): starts from the empty
record, overlays every non-null value of the durable file when it is readable,
then fills every still-missing field from its named environment variable
(`token_expires_at` has no environment variable in the source mapping).  The
function is total: a missing or unreadable file never raises. -/
def loadCredentials (file : FileState) (env : EnvVars) : Creds :=
  let base : Creds :=
    match file with
    | .present fc => fc
    | _ => emptyCreds
  { client_id := fieldLoad base.client_id env.spotifyClientId,
    client_secret := fieldLoad base.client_secret env.spotifyClientSecret,
    redirect_uri := fieldLoad base.redirect_uri env.spotifyRedirectUri,
    access_token := fieldLoad base.access_token env.spotifyAccessToken,
    refresh_token := fieldLoad base.refresh_token env.spotifyRefreshToken,
    device_name := fieldLoad base.device_name env.spotifyDeviceName,
    token_expires_at := base.token_expires_at }

/-- The record obtained from the environment alone (the fallback used for
every field when the file is absent; `token_expires_at` has no environment
variable and stays unset). -/
def envOnlyCreds (env : EnvVars) : Creds :=
  { client_id := envFallbackVal env.spotifyClientId,
    client_secret := envFallbackVal env.spotifyClientSecret,
    redirect_uri := envFallbackVal env.spotifyRedirectUri,
    access_token := envFallbackVal env.spotifyAccessToken,
    refresh_token := envFallbackVal env.spotifyRefreshToken,
    device_name := envFallbackVal env.spotifyDeviceName,
    token_expires_at := none }

/-- The in-memory state of a `CredsManager`: the current record plus the log
of persisted snapshots (each `save_credentials` call appends the full record it
attempts to write; a failing write is swallowed by the source, so the log
records write attempts). -/
structure CredsMgrState : Type where
  creds : Creds
  writes : List Creds
deriving DecidableEq, Repr

/-- `CredsManager.update_tokens` (creds_manager.py): overwrites only the
supplied (non-`None`) fields of the record, then performs exactly one
`save_credentials`. -/
def updateTokens (st : CredsMgrState) (accessToken : Option String)
    (refreshToken : Option String) (tokenExpiresAt : Option Int) : CredsMgrState :=
  let c0 := st.creds
  let c1 := match accessToken with
    | some a => { c0 with access_token := some a }
    | none => c0
  let c2 := match refreshToken with
    | some r => { c1 with refresh_token := some r }
    | none => c1
  let c3 := match tokenExpiresAt with
    | some e => { c2 with token_expires_at := some e }
    | none => c2
  { creds := c3, writes := st.writes ++ [c3] }

/-! ## Token supplier construction (spotify_api.py, Client.__init__) -/

/-- Python truthiness of an optional environment string (`if ACCESS_TOKEN:`). -/
def accessTokenTruthy : Option String → Bool
| some s => !s.isEmpty
| none => false

/-- The scope string `Client.__init__` passes to the OAuth helper. -/
def clientScope : String :=
  "user-library-read,user-read-playback-state,user-modify-playback-state,user-read-currently-playing,playlist-read-private,playlist-read-collaborative,playlist-modify-private,playlist-modify-public"

/-- The token-cache entry seeded by `Client.__init__` (the `token_info` dict). -/
structure InitTokenInfo : Type where
  accessToken : String
  tokenType : String
  expiresIn : Int
  refreshToken : String
  scope : String
  expiresAt : Int
deriving DecidableEq, Repr

/-- The `token_info` seeded into the in-memory token cache by
`Client.__init__` (spotify_api.py) on its refresh-token branch: when an access
token is supplied out-of-band it is assumed valid for 300 seconds
(`expires_at = now + 300`); when no access token is supplied the expiry is set
one second in the past to force an immediate refresh. -/
def initTokenInfo (now : Int) (accessTokenEnv : Option String)
    (refreshTokenEnv : String) : InitTokenInfo :=
  { accessToken := accessTokenEnv.getD "",
    tokenType := "Bearer",
    expiresIn := 3600,
    refreshToken := refreshTokenEnv,
    scope := clientScope,
    expiresAt := if accessTokenTruthy accessTokenEnv then now + 300 else now - 1 }

/-! ## Remote calls, traced computations, and the oracle -/

/-- One outbound remote-API request.  Calls the source issues through methods
this development embeds in full carry their arguments; the pass-through
methods (search, item info, queue listing, playlist listing) are tagged at
method granularity, which is all the claims inspect. -/
inductive RemoteCall : Type
| currentUserPlayingTrack
| startPlayback (uris : Option (List String)) (contextUri : Option String)
    (deviceId : Option String)
| currentPlayback
| pausePlayback (deviceId : Option String)
| nextTrack (deviceId : Option String)
| addToQueue (trackId : PyVal) (deviceId : Option String)
| queueGet
| searchCall
| getInfoCall (itemUri : PyVal)
| currentUserPlaylists
| playlistGet (playlistId : PyVal)
| playlistAddItems (playlistId : PyVal) (trackIds : PyVal)
| playlistRemoveItems (playlistId : PyVal) (trackIds : PyVal)
| playlistChangeDetails (playlistId : PyVal) (name : PyVal) (description : PyVal)
| currentUser
| userPlaylistCreate (name : PyVal) (description : PyVal) (public : PyVal)
deriving DecidableEq, Repr

/-- A computation of the client layer: an exceptional result together with the
trace of remote calls it issued (in order).  Exceptions short-circuit, but the
calls issued before the raise stay in the trace. -/
abbrev M (α : Type) : Type := Except PyExn α × List RemoteCall

instance : Monad M where
  pure a := (Except.ok a, [])
  bind x f :=
    match x.1 with
    | .error e => (.error e, x.2)
    | .ok a => ((f a).1, x.2 ++ (f a).2)

/-- Issue a remote call: the call is recorded and its outcome is whatever the
oracle answers for it. -/
def callRemote (c : RemoteCall) (out : Except PyExn α) : M α := (out, [c])

/-- Issue a remote call inside a `try/except` that logs and swallows every
exception (the playlist mutation helpers of spotify_api.py do this): the call
is recorded and the computation continues regardless of the outcome. -/
def callSwallow (c : RemoteCall) : M Unit := (.ok (), [c])

/-- Raise a Python exception. -/
def throwPy (e : PyExn) : M α := (.error e, [])

/-- Run a computation that issues no remote call (decorator gates, pure
library calls). -/
def liftExc (x : Except PyExn α) : M α := (x, [])

/-- The `current_user_playing_track` response shape the source reads:
`currently_playing_type` (absent key reads as `None`), `item`, and the
optional `is_playing` flag (`none` when the key is absent). -/
structure PlayingResponse : Type where
  currentlyPlayingType : Option String
  item : PyVal
  isPlaying : Option Bool
deriving DecidableEq, Repr

/-- The `current_playback` response shape `pause_playback` reads: only the
`is_playing` flag matters (`none` when the key is absent). -/
structure PlaybackState : Type where
  isPlaying : Option Bool
deriving DecidableEq, Repr

/-- The dictionary `get_current_track` returns: the parsed track data plus the
`is_playing` flag copied from the response when present. -/
structure TrackInfo : Type where
  base : PyVal
  isPlaying : Option Bool
deriving DecidableEq, Repr

/-- The external world one tool invocation runs against: the outcome of each
remote call the client can make, the behaviour of the external library
helpers, and the module-level configuration.  `validateGate` models the
`@utils.validate` decorator and `ensureUsernameGate` the `@utils.ensure_username`
decorator; `utils.py` is not part of the sources, so — modelled from the spec —
the validate gate guards a call with the valid-session precondition and may
supply a resolved device (spec section 4.4), and either gate may raise.
`jsonLoads` is the standard-library JSON parser, `parseTrack`, `parseTracks`,
`parsePlaylist` and `parsePlaylists` the pass-through response projections of
`utils` (out of scope per spec section 1). -/
structure Oracle : Type where
  validateGate : Except PyExn (Option Device)
  ensureUsernameGate : Except PyExn Unit
  currentUserPlayingTrackR : Except PyExn (Option PlayingResponse)
  startPlaybackR : Except PyExn PyVal
  currentPlaybackR : Except PyExn (Option PlaybackState)
  pausePlaybackR : Except PyExn PyVal
  nextTrackR : Except PyExn PyVal
  addToQueueR : Except PyExn PyVal
  queueR : Except PyExn PyVal
  searchR : Except PyExn PyVal
  getInfoR : Except PyExn PyVal
  currentUserPlaylistsR : Except PyExn PyVal
  playlistR : Except PyExn PyVal
  playlistAddItemsR : Except PyExn PyVal
  playlistRemoveItemsR : Except PyExn PyVal
  playlistChangeDetailsR : Except PyExn PyVal
  currentUserR : Except PyExn PyVal
  userPlaylistCreateR : Except PyExn PyVal
  parseTrack : PyVal → PyVal
  parseTracks : PyVal → PyVal
  parsePlaylist : PyVal → PyVal
  parsePlaylists : PyVal → PyVal
  jsonLoads : String → Except String PyVal
  defaultDeviceId : Option String

/-- `device.get('id') if device else DEFAULT_DEVICE_ID` (spotify_api.py). -/
def pickDeviceId (o : Oracle) (device : Option Device) : Option String :=
  match device with
  | some d => d.id
  | none => o.defaultDeviceId

/-! ## Client methods (spotify_api.py) -/

/-- `Client.get_current_track`: returns `none` when there is no playback
session or the current playback is not a track; otherwise the parsed item,
with the `is_playing` flag copied over when the response carries it.  Its
`try/except` re-raises, so exceptions propagate unchanged. -/
def getCurrentTrack (o : Oracle) : M (Option TrackInfo) := do
  let cur ← callRemote .currentUserPlayingTrack o.currentUserPlayingTrackR
  match cur with
  | none => pure none
  | some p =>
    if p.currentlyPlayingType ≠ some "track" then pure none
    else pure (some { base := o.parseTrack p.item, isPlaying := p.isPlaying })

/-- `Client.is_track_playing`: true exactly when a current track exists and
its `is_playing` flag is truthy. -/
def isTrackPlaying (o : Oracle) : M Bool := do
  let t ← getCurrentTrack o
  match t with
  | none => pure false
  | some ti => pure (ti.isPlaying == some true)

/-- The tail of `Client.start_playback` once it decides to issue the remote
request: computes `uris`/`context_uri` from the given uri (a non-string,
non-`None` value hits `.startswith` and raises `AttributeError`), picks the
device id and issues `sp.start_playback`. -/
def startPlaybackIssue (o : Oracle) (spotifyUri : PyVal) (device : Option Device) :
    M PyVal := do
  let p : Option (List String) × Option String ←
    match spotifyUri with
    | .none => pure (none, none)
    | .str s =>
      if s.startsWith "spotify:track:" then pure (some [s], none)
      else pure (none, some s)
    | _ => throwPy (.attributeError "object has no attribute startswith")
  callRemote (.startPlayback p.1 p.2 (pickDeviceId o device)) o.startPlaybackR

/-- The body of `Client.start_playback` (spotify_api.py): with a falsy uri it
first checks whether a track is actively playing (then: no-op returning
`None`), then whether any current track exists at all (none: raises
`ValueError`); in every remaining case it issues the remote start/resume
request.  Its `try/except` re-raises, so exceptions propagate unchanged. -/
def startPlaybackBody (o : Oracle) (spotifyUri : PyVal) (device : Option Device) :
    M PyVal := do
  if pyTruthy spotifyUri then startPlaybackIssue o spotifyUri device
  else do
    let playing ← isTrackPlaying o
    if playing then pure PyVal.none
    else do
      let cur ← getCurrentTrack o
      match cur with
      | none => throwPy (.valueError "No track_id provided and no current playback to resume.")
      | some _ => startPlaybackIssue o spotifyUri device

/-- The body of `Client.pause_playback` (spotify_api.py): fetches the current
playback state and issues the remote pause only when a state exists and its
`is_playing` flag is truthy; otherwise it returns without any further call. -/
def pausePlaybackBody (o : Oracle) (device : Option Device) : M PyVal := do
  let playback ← callRemote .currentPlayback o.currentPlaybackR
  match playback with
  | some pb =>
    if pb.isPlaying == some true then do
      let _ ← callRemote (.pausePlayback (pickDeviceId o device)) o.pausePlaybackR
      pure PyVal.none
    else pure PyVal.none
  | none => pure PyVal.none

/-- `Client.start_playback` as called by the server: the `@utils.validate`
gate runs first, then the body. -/
def clientStartPlayback (o : Oracle) (spotifyUri : PyVal) : M PyVal := do
  let device ← liftExc o.validateGate
  startPlaybackBody o spotifyUri device

/-- `Client.pause_playback` as called by the server: the `@utils.validate`
gate runs first, then the body. -/
def clientPausePlayback (o : Oracle) : M PyVal := do
  let device ← liftExc o.validateGate
  pausePlaybackBody o device

/-- The loop of `Client.skip_track`: `n` consecutive `next_track` calls. -/
def skipLoop (o : Oracle) : Nat → M PyVal
| 0 => pure PyVal.none
| k + 1 => do
  let _ ← callRemote (.nextTrack o.defaultDeviceId) o.nextTrackR
  skipLoop o k

/-- `Client.skip_track` (spotify_api.py): issues one `next_track` request per
iteration of `range(n)`. -/
def skipTrack (o : Oracle) (n : Int) : M PyVal := skipLoop o n.toNat

/-- `Client.add_to_queue`: validate gate, then the remote queue-add request. -/
def clientAddToQueue (o : Oracle) (trackId : PyVal) : M PyVal := do
  let device ← liftExc o.validateGate
  callRemote (.addToQueue trackId (pickDeviceId o device)) o.addToQueueR

/-- `Client.get_queue` at method granularity: validate gate, then the queue
retrieval (its internal current-track lookup and per-track parsing are
collapsed into the single oracle outcome; pass-through data, out of scope per
spec section 1). -/
def clientGetQueue (o : Oracle) : M PyVal := do
  let _ ← liftExc o.validateGate
  callRemote .queueGet o.queueR

/-- `Client.search` at method granularity: validate gate, then the search
(username bootstrap and result parsing are collapsed into the single oracle
outcome; pass-through data, out of scope per spec section 1). -/
def clientSearch (o : Oracle) : M PyVal := do
  let _ ← liftExc o.validateGate
  callRemote .searchCall o.searchR

/-- `Client.get_info` at method granularity: the item lookups are collapsed
into the single oracle outcome (a malformed or `None` uri raises, which the
oracle reports as an error outcome). -/
def clientGetInfo (o : Oracle) (itemUri : PyVal) : M PyVal :=
  callRemote (.getInfoCall itemUri) o.getInfoR

/-- `Client.get_current_user_playlists`: fetches the playlist listing and
raises `ValueError` when the result is falsy. -/
def getCurrentUserPlaylists (o : Oracle) : M PyVal := do
  let pls ← callRemote .currentUserPlaylists o.currentUserPlaylistsR
  if pyTruthy pls then pure (o.parsePlaylists pls)
  else throwPy (.valueError "No playlists found.")

/-- `Client.get_playlist_tracks`: ensure-username gate, playlist fetch,
`ValueError` on a falsy result, else the parsed tracks. -/
def getPlaylistTracks (o : Oracle) (playlistId : PyVal) : M PyVal := do
  let _ ← liftExc o.ensureUsernameGate
  let pl ← callRemote (.playlistGet playlistId) o.playlistR
  if pyTruthy pl then pure (o.parseTracks pl)
  else throwPy (.valueError "No playlist found.")

/-- `Client.add_tracks_to_playlist` (spotify_api.py): ensure-username gate,
`ValueError` for a falsy playlist id or falsy track list, then the remote
add — whose own failure the source logs and swallows. -/
def addTracksToPlaylist (o : Oracle) (playlistId trackIds : PyVal) : M PyVal := do
  let _ ← liftExc o.ensureUsernameGate
  if ¬ pyTruthy playlistId then throwPy (.valueError "No playlist ID provided.")
  else if ¬ pyTruthy trackIds then throwPy (.valueError "No track IDs provided.")
  else do
    callSwallow (.playlistAddItems playlistId trackIds)
    pure PyVal.none

/-- `Client.remove_tracks_from_playlist` (spotify_api.py): same shape as the
add, against the remote remove-all-occurrences request. -/
def removeTracksFromPlaylist (o : Oracle) (playlistId trackIds : PyVal) : M PyVal := do
  let _ ← liftExc o.ensureUsernameGate
  if ¬ pyTruthy playlistId then throwPy (.valueError "No playlist ID provided.")
  else if ¬ pyTruthy trackIds then throwPy (.valueError "No track IDs provided.")
  else do
    callSwallow (.playlistRemoveItems playlistId trackIds)
    pure PyVal.none

/-- `Client.change_playlist_details`: ensure-username gate, `ValueError` for a
falsy playlist id, then the remote change — whose own failure the source logs
and swallows. -/
def changePlaylistDetails (o : Oracle) (playlistId name description : PyVal) : M PyVal := do
  let _ ← liftExc o.ensureUsernameGate
  if ¬ pyTruthy playlistId then throwPy (.valueError "No playlist ID provided.")
  else do
    callSwallow (.playlistChangeDetails playlistId name description)
    pure PyVal.none

/-- `Client.create_playlist`: ensure-username gate, `ValueError` for a falsy
name, then the current-user lookup and the remote create; its `try/except`
re-raises, so remote failures propagate. -/
def createPlaylist (o : Oracle) (name description pub : PyVal) : M PyVal := do
  let _ ← liftExc o.ensureUsernameGate
  if ¬ pyTruthy name then throwPy (.valueError "Playlist name is required.")
  else do
    let _ ← callRemote .currentUser o.currentUserR
    let pl ← callRemote (.userPlaylistCreate name description pub) o.userPlaylistCreateR
    pure (o.parsePlaylist pl)

/-! ## Action dispatcher (server.py, handle_call_tool) -/

/-- One content block of the transport response: either a JSON-serialized
payload (`json.dumps(..., indent=2)` of an opaque payload, or of the current
track dictionary) or a human-readable text string. -/
inductive Content : Type
| jsonC (v : PyVal)
| jsonTrack (t : TrackInfo)
| text (s : String)
deriving DecidableEq, Repr

/-- The argument mapping of a tool invocation: `none` models an absent key. -/
abbrev Arguments : Type := String → Option PyVal

/-- Python `arguments.get(k)`: an absent key reads as `None`. -/
def argGet (args : Arguments) (k : String) : PyVal := (args k).getD PyVal.none

/-- Python `arguments.get(k, d)`: the default applies only to an absent key
(a key present with value `None` stays `None`). -/
def argGetD (args : Arguments) (k : String) (d : PyVal) : PyVal := (args k).getD d

/-- Pointwise update of an argument mapping (used to state that a parsed
`track_ids` string behaves like the list supplied directly). -/
def updateArg (args : Arguments) (k : String) (v : PyVal) : Arguments :=
  fun k2 => if k2 = k then some v else args k2

/-- Python `int(x)` as applied to `num_skips`: integers pass through, booleans
coerce, numeric strings parse, everything else raises. -/
def pyIntConv : PyVal → Except PyExn Int
| .int n => .ok n
| .bool b => .ok (if b then 1 else 0)
| .str s =>
  match s.trim.toInt? with
  | some n => .ok n
  | none => .error (.valueError ("invalid literal for int() with base 10: " ++ s))
| .none => .error (.typeError "int() argument cannot be None")
| .strlist _ => .error (.typeError "int() argument cannot be a list")

/-- The `isinstance(track_ids, str)` conversion of the playlist add/remove
branches (server.py): a string is parsed with `json.loads`; a parse failure
short-circuits with the validation-error block; any other value is passed on
unchanged to the continuation. -/
def parseTrackIds (o : Oracle) (v : PyVal)
    (k : PyVal → M (Option (List Content))) : M (Option (List Content)) :=
  match v with
  | .str s =>
    match o.jsonLoads s with
    | .error _ =>
      pure (some [Content.text "Error: track_ids must be a list or a valid JSON array."])
    | .ok parsed => k parsed
  | _ => k v

/-- The `case "Playlist"` branch of `handle_call_tool` (server.py). -/
def playlistBody (o : Oracle) (args : Arguments) : M (Option (List Content)) :=
  let action := argGet args "action"
  if action = .str "get" then do
    let pls ← getCurrentUserPlaylists o
    pure (some [Content.jsonC pls])
  else if action = .str "get_tracks" then
    if ¬ pyTruthy (argGet args "playlist_id") then
      pure (some [Content.text "playlist_id is required for get_tracks action."])
    else do
      let t ← getPlaylistTracks o (argGet args "playlist_id")
      pure (some [Content.jsonC t])
  else if action = .str "add_tracks" then
    parseTrackIds o (argGet args "track_ids") (fun tids => do
      let _ ← addTracksToPlaylist o (argGet args "playlist_id") tids
      pure (some [Content.text "Tracks added to playlist."]))
  else if action = .str "remove_tracks" then
    parseTrackIds o (argGet args "track_ids") (fun tids => do
      let _ ← removeTracksFromPlaylist o (argGet args "playlist_id") tids
      pure (some [Content.text "Tracks removed from playlist."]))
  else if action = .str "change_details" then
    if ¬ pyTruthy (argGet args "playlist_id") then
      pure (some [Content.text "playlist_id is required for change_details action."])
    else if ¬ pyTruthy (argGet args "name") ∧ ¬ pyTruthy (argGet args "description") then
      pure (some [Content.text "At least one of name, description, public, or collaborative is required."])
    else do
      let _ ← changePlaylistDetails o (argGet args "playlist_id")
        (argGet args "name") (argGet args "description")
      pure (some [Content.text "Playlist details changed."])
  else if action = .str "create" then
    if ¬ pyTruthy (argGet args "name") then
      pure (some [Content.text "name is required for create action."])
    else do
      let pl ← createPlaylist o (argGet args "name") (argGet args "description")
        (argGetD args "public" (.bool true))
      pure (some [Content.jsonC pl])
  else
    pure (some [Content.text ("Unknown playlist action: " ++ pyStr action ++
      ".Supported actions are: get, get_tracks, add_tracks, remove_tracks, change_details, create.")])

/-- The `try` body of `handle_call_tool` (server.py), after the `"Spotify"`
prefix assertion, dispatching on the tool-name suffix.  A `none` result is the
implicit Python `None` return of a fall-through (the `Playback` action match
has no default case). -/
def tryBody (o : Oracle) (suffix : String) (args : Arguments) :
    M (Option (List Content)) :=
  if suffix = "Playback" then
    let action := argGet args "action"
    if action = .str "get" then do
      let t ← getCurrentTrack o
      match t with
      | some ti => pure (some [Content.jsonTrack ti])
      | none => pure (some [Content.text "No track playing."])
    else if action = .str "start" then do
      let _ ← clientStartPlayback o (argGet args "spotify_uri")
      pure (some [Content.text "Playback starting."])
    else if action = .str "pause" then do
      let _ ← clientPausePlayback o
      pure (some [Content.text "Playback paused."])
    else if action = .str "skip" then do
      let n ← liftExc (pyIntConv (argGetD args "num_skips" (.int 1)))
      let _ ← skipTrack o n
      pure (some [Content.text "Skipped to next track."])
    else pure none
  else if suffix = "Search" then do
    let r ← clientSearch o
    pure (some [Content.jsonC r])
  else if suffix = "Queue" then
    let action := argGet args "action"
    if action = .str "add" then
      if ¬ pyTruthy (argGet args "track_id") then
        pure (some [Content.text "track_id is required for add action"])
      else do
        let _ ← clientAddToQueue o (argGet args "track_id")
        pure (some [Content.text "Track added to queue."])
    else if action = .str "get" then do
      let q ← clientGetQueue o
      pure (some [Content.jsonC q])
    else
      pure (some [Content.text ("Unknown queue action: " ++ pyStr action ++
        ". Supported actions are: add, remove, and get.")])
  else if suffix = "GetInfo" then do
    let r ← clientGetInfo o (argGet args "item_uri")
    pure (some [Content.jsonC r])
  else if suffix = "Playlist" then
    playlistBody o args
  else
    pure (some [Content.text ("Unknown tool: Spotify" ++ suffix)])

/-- The two `except` clauses of `handle_call_tool`: a `SpotifyException`
becomes its dedicated text block, every other exception the generic
unexpected-error text block; a non-exceptional result passes through. -/
def catchExns : Except PyExn (Option (List Content)) → Option (List Content)
| .ok r => r
| .error (.spotifyException m) =>
  some [Content.text ("An error occurred with the Spotify Client: " ++ m)]
| .error e => some [Content.text ("Unexpected error occurred: " ++ e.msg)]

/-- Python string slice `name[:n]` (character based). -/
def strTake (s : String) (n : Nat) : String := String.mk (s.data.take n)

/-- Python string slice `name[n:]` (character based). -/
def strDrop (s : String) (n : Nat) : String := String.mk (s.data.drop n)

/-- `handle_call_tool` (server.py): the `assert name[:7] == "Spotify"` runs
before the `try` block, so a name without the prefix raises an
`AssertionError` that propagates to the transport; otherwise the body runs on
the suffix `name[7:]` with every exception converted to a content-block
response by the two `except` clauses. -/
def handleCallTool (o : Oracle) (name : String) (args : Arguments) :
    Except PyExn (Option (List Content)) × List RemoteCall :=
  if strTake name 7 = "Spotify" then
    let r := tryBody o (strDrop name 7) args
    (Except.ok (catchExns r.1), r.2)
  else
    (Except.error (PyExn.assertionError ("Unknown tool: " ++ name)), [])

/-! ## Token refresh interleaving (spotify_api.py, auth_refresh; spec section 5)

The check-expiry / refresh / update-cache sequence is executed by
`Client.auth_refresh` through the OAuth helper (`validate_token`: refresh the
token exactly when the cached one is observed expired, then store it back in
the shared cache).  The source contains no lock or other mutual-exclusion
construct anywhere, so two concurrent invocations of the sequence over the
shared cache may interleave between the expiry check and the cache update.
The model below runs two copies of the sequence as atomic steps over the
shared cache under an explicit schedule. -/

/-- The shared token cache: the cached expiry, a version counter for the
access token, and the number of refresh exchanges performed so far. -/
structure TokenCacheState : Type where
  expiresAt : Int
  tokenVersion : Nat
  refreshExchanges : Nat
deriving DecidableEq, Repr

/-- Program counter of one invocation running the refresh sequence. -/
inductive RefreshPC : Type
| atCheck
| atRefresh
| finished
deriving DecidableEq, Repr

/-- One atomic step of one invocation: the expiry check reads the shared
cache and proceeds to the refresh exactly when the cached token is observed
expired; the refresh performs the exchange and updates the shared cache. -/
def taskStep (now : Int) (cache : TokenCacheState) :
    RefreshPC → RefreshPC × TokenCacheState
| .atCheck =>
  (if cache.expiresAt ≤ now then .atRefresh else .finished, cache)
| .atRefresh =>
  (.finished,
   { expiresAt := now + 3600, tokenVersion := cache.tokenVersion + 1,
     refreshExchanges := cache.refreshExchanges + 1 })
| .finished => (.finished, cache)

/-- Two invocations sharing one token cache. -/
structure TwoTaskState : Type where
  cache : TokenCacheState
  pc0 : RefreshPC
  pc1 : RefreshPC
deriving DecidableEq, Repr

/-- Scheduler step: advance the chosen invocation by one atomic step. -/
def sysStep (now : Int) (s : TwoTaskState) : Bool → TwoTaskState
| false =>
  let r := taskStep now s.cache s.pc0
  { s with pc0 := r.1, cache := r.2 }
| true =>
  let r := taskStep now s.cache s.pc1
  { s with pc1 := r.1, cache := r.2 }

/-- Run a schedule (a list of task choices) from a state. -/
def runSched (now : Int) (s : TwoTaskState) : List Bool → TwoTaskState
| [] => s
| b :: bs => runSched now (sysStep now s b) bs

/-- Both invocations poised at the expiry check over a shared cache whose
token is already expired (`expiresAt = 0` against `now = 1000`). -/
def expiredStart : TwoTaskState :=
  { cache := { expiresAt := 0, tokenVersion := 0, refreshExchanges := 0 },
    pc0 := .atCheck, pc1 := .atCheck }

/-! ## Dispatcher response-shape invariant -/

/-- Unfolding of the traced-computation bind. -/
theorem M_bind_eq {α β : Type} (x : M α) (f : α → M β) :
    x >>= f = match x.1 with
      | .error e => (.error e, x.2)
      | .ok a => ((f a).1, x.2 ++ (f a).2) := rfl

/-- Unfolding of the traced-computation pure. -/
theorem M_pure_eq {α : Type} (a : α) : (pure a : M α) = (Except.ok a, []) := rfl

/-- A dispatcher computation whose every non-exceptional outcome is exactly
one content block. -/
def OkSingleton (m : M (Option (List Content))) : Prop :=
  ∀ v, m.1 = Except.ok v → ∃ c, v = some [c]

theorem okSingleton_pure (c : Content) :
    OkSingleton (pure (some [c])) := by
  intro v hv
  exact ⟨c, (Except.ok.inj hv).symm⟩

theorem okSingleton_throw (e : PyExn) : OkSingleton (throwPy e) := by
  intro v hv
  exact Except.noConfusion hv

theorem okSingleton_bind {α : Type} (x : M α) (f : α → M (Option (List Content)))
    (h : ∀ a, OkSingleton (f a)) : OkSingleton (x >>= f) := by
  intro v hv
  rcases x with ⟨xr, xc⟩
  cases xr with
  | error e => exact Except.noConfusion hv
  | ok a => exact h a v hv

theorem okSingleton_ite {p : Prop} [Decidable p] {a b : M (Option (List Content))}
    (ha : OkSingleton a) (hb : OkSingleton b) : OkSingleton (if p then a else b) := by
  by_cases h : p
  · rwa [if_pos h]
  · rwa [if_neg h]

theorem okSingleton_parseTrackIds (o : Oracle) (v : PyVal)
    (k : PyVal → M (Option (List Content))) (hk : ∀ x, OkSingleton (k x)) :
    OkSingleton (parseTrackIds o v k) := by
  cases v with
  | str s =>
    cases h : o.jsonLoads s with
    | error m =>
      simp only [parseTrackIds, h]
      exact okSingleton_pure _
    | ok parsed =>
      simp only [parseTrackIds, h]
      exact hk parsed
  | none => exact hk _
  | int n => exact hk _
  | bool b => exact hk _
  | strlist xs => exact hk _

/-- Every branch of the playlist dispatcher returns exactly one content block
on a non-exceptional outcome. -/
theorem okSingleton_playlistBody (o : Oracle) (args : Arguments) :
    OkSingleton (playlistBody o args) := by
  simp only [playlistBody]
  refine okSingleton_ite ?_ (okSingleton_ite ?_ (okSingleton_ite ?_ (okSingleton_ite ?_
    (okSingleton_ite ?_ (okSingleton_ite ?_ ?_)))))
  · exact okSingleton_bind _ _ (fun _ => okSingleton_pure _)
  · exact okSingleton_ite (okSingleton_pure _)
      (okSingleton_bind _ _ (fun _ => okSingleton_pure _))
  · exact okSingleton_parseTrackIds o _ _
      (fun _ => okSingleton_bind _ _ (fun _ => okSingleton_pure _))
  · exact okSingleton_parseTrackIds o _ _
      (fun _ => okSingleton_bind _ _ (fun _ => okSingleton_pure _))
  · exact okSingleton_ite (okSingleton_pure _) (okSingleton_ite (okSingleton_pure _)
      (okSingleton_bind _ _ (fun _ => okSingleton_pure _)))
  · exact okSingleton_ite (okSingleton_pure _)
      (okSingleton_bind _ _ (fun _ => okSingleton_pure _))
  · exact okSingleton_pure _

/-- Every `.ok` outcome of the dispatcher body is exactly one content block,
provided the tool name suffix is `Playback` only with one of its four defined
actions (the `Playback` action match has no default case and falls through to
an implicit `None` otherwise). -/
theorem okSingleton_tryBody (o : Oracle) (suffix : String) (args : Arguments)
    (hplay : suffix = "Playback" →
      argGet args "action" = .str "get" ∨ argGet args "action" = .str "start" ∨
      argGet args "action" = .str "pause" ∨ argGet args "action" = .str "skip") :
    OkSingleton (tryBody o suffix args) := by
  by_cases h1 : suffix = "Playback"
  · subst h1
    rcases hplay rfl with ha | ha | ha | ha
    · simp +decide only [tryBody, ha, if_true, if_false]
      exact okSingleton_bind _ _ (fun a => by
        cases a with
        | some ti => exact okSingleton_pure _
        | none => exact okSingleton_pure _)
    · simp +decide only [tryBody, ha, if_true, if_false]
      exact okSingleton_bind _ _ (fun _ => okSingleton_pure _)
    · simp +decide only [tryBody, ha, if_true, if_false]
      exact okSingleton_bind _ _ (fun _ => okSingleton_pure _)
    · simp +decide only [tryBody, ha, if_true, if_false]
      exact okSingleton_bind _ _
        (fun _ => okSingleton_bind _ _ (fun _ => okSingleton_pure _))
  · by_cases h2 : suffix = "Search"
    · subst h2
      simp +decide only [tryBody, if_true, if_false]
      exact okSingleton_bind _ _ (fun _ => okSingleton_pure _)
    · by_cases h3 : suffix = "Queue"
      · subst h3
        simp +decide only [tryBody, if_true, if_false]
        refine okSingleton_ite (okSingleton_ite (okSingleton_pure _)
          (okSingleton_bind _ _ (fun _ => okSingleton_pure _)))
          (okSingleton_ite (okSingleton_bind _ _ (fun _ => okSingleton_pure _))
            (okSingleton_pure _))
      · by_cases h4 : suffix = "GetInfo"
        · subst h4
          simp +decide only [tryBody, if_true, if_false]
          exact okSingleton_bind _ _ (fun _ => okSingleton_pure _)
        · by_cases h5 : suffix = "Playlist"
          · subst h5
            simp +decide only [tryBody, if_true, if_false]
            exact okSingleton_playlistBody o args
          · simp only [tryBody, if_neg h1, if_neg h2, if_neg h3, if_neg h4, if_neg h5]
            exact okSingleton_pure _

/-! ## Claim theorems -/

/-- C2: on every credential load, a non-null value declared in the durable
file wins over the corresponding environment variable for each of the seven
fields; when the file is absent (and likewise unreadable), every field falls
back to its named environment variable (applied with the truthiness guard of
the source; `token_expires_at`, which has no environment variable in the
source mapping, stays unset), and the load is a total function, so a missing
file never raises. -/
theorem c2_load_file_wins_env_fallback (fc : Creds) (env : EnvVars) :
    loadCredentials FileState.absent env = envOnlyCreds env ∧
    (∀ m, loadCredentials (FileState.unreadable m) env = envOnlyCreds env) ∧
    (∀ v, fc.client_id = some v →
      (loadCredentials (FileState.present fc) env).client_id = some v) ∧
    (∀ v, fc.client_secret = some v →
      (loadCredentials (FileState.present fc) env).client_secret = some v) ∧
    (∀ v, fc.redirect_uri = some v →
      (loadCredentials (FileState.present fc) env).redirect_uri = some v) ∧
    (∀ v, fc.access_token = some v →
      (loadCredentials (FileState.present fc) env).access_token = some v) ∧
    (∀ v, fc.refresh_token = some v →
      (loadCredentials (FileState.present fc) env).refresh_token = some v) ∧
    (∀ v, fc.device_name = some v →
      (loadCredentials (FileState.present fc) env).device_name = some v) ∧
    (∀ v, fc.token_expires_at = some v →
      (loadCredentials (FileState.present fc) env).token_expires_at = some v) := by
  refine ⟨rfl, fun m => rfl, ?_, ?_, ?_, ?_, ?_, ?_, ?_⟩ <;>
    intro v h <;> simp [loadCredentials, fieldLoad, h]

/-- Concrete instantiation of the C2 theorem: a file access token beats the
environment one, and with the file absent the environment supplies the id. -/
def fcW : Creds :=
  { emptyCreds with access_token := some "file-tok", client_id := some "file-id" }

/-- Concrete environment for the C2 witness. -/
def envW : EnvVars :=
  { spotifyClientId := some "env-id", spotifyClientSecret := some "env-secret",
    spotifyRedirectUri := none, spotifyAccessToken := some "env-tok",
    spotifyRefreshToken := none, spotifyDeviceName := none }

/-- Witness for C2 at a concrete file and environment. -/
theorem c2_witness :
    loadCredentials FileState.absent envW = envOnlyCreds envW ∧
    (loadCredentials (FileState.present fcW) envW).access_token = some "file-tok" :=
  ⟨(c2_load_file_wins_env_fallback fcW envW).1,
   (c2_load_file_wins_env_fallback fcW envW).2.2.2.2.2.1 "file-tok" rfl⟩

/-- C3 (amended): device resolution over a non-empty fetched list returns a
member of that list; when some device is active it returns the first active
device; when none is active it returns the first device of the list — the
configured default device name plays no part in list-based resolution (the
resolver does not consult it; see the counterexample). -/
theorem c3_first_active_else_head (d : Device) (ds : List Device) :
    ∃ dev, getCandidateDevice (d :: ds) = .ok dev ∧ dev ∈ d :: ds ∧
      (∀ a, (d :: ds).find? (fun x => x.isActive) = some a → dev = a) ∧
      ((d :: ds).find? (fun x => x.isActive) = none → dev = d) := by
  cases h : (d :: ds).find? (fun x => x.isActive) with
  | some a =>
    refine ⟨a, ?_, List.mem_of_find?_eq_some h, ?_, ?_⟩
    · simp [getCandidateDevice, h]
    · intro b hb
      exact Option.some_injective _ hb
    · intro hb
      exact Option.noConfusion hb
  | none =>
    refine ⟨d, ?_, List.mem_cons_self d ds, ?_, fun _ => rfl⟩
    · simp [getCandidateDevice, h]
    · intro b hb
      exact Option.noConfusion hb

/-- An inactive device named A. -/
def devA : Device := { id := some "a-id", name := "A", isActive := false }

/-- An inactive device named C. -/
def devC : Device := { id := some "c-id", name := "C", isActive := false }

/-- An active device named B. -/
def devB : Device := { id := some "b-id", name := "B", isActive := true }

/-- Counterexample for C3 as stated: with no active device among [A, C] and a
configured default device name "Kitchen", resolution returns A (the first
device of the list), not the configured "Kitchen" device — the resolver does
not take a configured default into account at all. -/
theorem c3_counterexample :
    getCandidateDevice [devA, devC] = .ok devA ∧
    devA.name ≠ "Kitchen" ∧ devA.isActive = false ∧ devC.isActive = false := by
  decide

/-- Witness for C3 at concrete device lists: with B the only active device
among [A, B, C] resolution returns B, and with no active device it returns the
head. -/
theorem c3_witness :
    getCandidateDevice [devA, devB, devC] = .ok devB ∧
    getCandidateDevice [devC, devA] = .ok devC := by
  have h1 := c3_first_active_else_head devA [devB, devC]
  have h2 := c3_first_active_else_head devC [devA]
  obtain ⟨dev1, he1, -, hf1, -⟩ := h1
  obtain ⟨dev2, he2, -, -, hn2⟩ := h2
  constructor
  · rw [he1, hf1 devB (by decide)]
  · rw [he2, hn2 (by decide)]

/-- C5 (amended): resolution against an empty device list always fails, with
the specific error `ConnectionError("No active device. Is Spotify open?")`:
its kind is distinct from the authorization error kind (`SpotifyException`),
but it is Python's builtin network-error class, so the error kind is not
distinct from network error kinds — distinguishability rests on the message
text alone. -/
theorem c5_empty_list_connection_error :
    ∃ e, getCandidateDevice [] = .error e ∧
      isAuthorizationErrorKind e = false ∧
      e.msg = "No active device. Is Spotify open?" ∧
      e = .connectionError "No active device. Is Spotify open?" :=
  ⟨.connectionError "No active device. Is Spotify open?", rfl, rfl, rfl, rfl⟩

/-- Counterexample for C5 as stated: the error raised for an empty device list
is a `ConnectionError`, which is exactly the builtin network error kind, so
its kind is not distinct from network error kinds. -/
theorem c5_counterexample :
    getCandidateDevice [] =
      .error (.connectionError "No active device. Is Spotify open?") ∧
    isNetworkErrorKind (.connectionError "No active device. Is Spotify open?") = true := by
  decide

/-- C6 (amended): the source contains no mutual exclusion around the
check-expiry / refresh / update-cache sequence, so the refresh is not
serialized: under the interleaving in which both concurrent invocations pass
the expiry check before either refresh completes, two refresh exchanges are
performed (one per invocation); only under a serialized schedule does a single
exchange occur, with the second invocation observing the refreshed token and
refreshing no further. -/
theorem c6_refresh_not_serialized :
    ((runSched 1000 expiredStart [false, true]).pc0 = RefreshPC.atRefresh ∧
     (runSched 1000 expiredStart [false, true]).pc1 = RefreshPC.atRefresh) ∧
    (runSched 1000 expiredStart [false, true, false, true]).cache.refreshExchanges = 2 ∧
    ((runSched 1000 expiredStart [false, false, true, true]).cache.refreshExchanges = 1 ∧
     (runSched 1000 expiredStart [false, false, true, true]).cache.tokenVersion = 1) := by
  decide

/-- Counterexample for C6 as stated: an execution of the two concurrent
refresh sequences in which both invocations observe the expired token (both
stand at the refresh step after their checks) and that then performs two
refresh exchanges, not exactly one, with both invocations run to completion. -/
theorem c6_counterexample :
    (runSched 1000 expiredStart [false, true]).pc0 = RefreshPC.atRefresh ∧
    (runSched 1000 expiredStart [false, true]).pc1 = RefreshPC.atRefresh ∧
    (runSched 1000 expiredStart [false, true, false, true]).pc0 = RefreshPC.finished ∧
    (runSched 1000 expiredStart [false, true, false, true]).pc1 = RefreshPC.finished ∧
    (runSched 1000 expiredStart [false, true, false, true]).cache.refreshExchanges ≠ 1 := by
  decide

/-- C7: on the refresh-token branch of client construction, an out-of-band
access token is trusted only for a bounded grace window — the seeded cache
entry expires exactly 300 seconds (several minutes) after construction, after
which the expiry timestamp is in the past relative to any later instant — and
with no access token supplied the expiry is set in the past at construction,
forcing an immediate refresh. -/
theorem c7_grace_window (now : Int) (accessTokenEnv : Option String)
    (refreshTokenEnv : String) :
    (accessTokenTruthy accessTokenEnv = true →
      (initTokenInfo now accessTokenEnv refreshTokenEnv).expiresAt = now + 300 ∧
      now < (initTokenInfo now accessTokenEnv refreshTokenEnv).expiresAt ∧
      ∀ t : Int, now + 300 ≤ t →
        (initTokenInfo now accessTokenEnv refreshTokenEnv).expiresAt ≤ t) ∧
    (accessTokenTruthy accessTokenEnv = false →
      (initTokenInfo now accessTokenEnv refreshTokenEnv).expiresAt < now) := by
  constructor
  · intro h
    simp [initTokenInfo, h]
  · intro h
    simp [initTokenInfo, h]

/-- Witness for C7 at a concrete construction instant: with an access token
supplied the cache entry expires at 300, with none it expires at -1. -/
theorem c7_witness :
    (initTokenInfo 0 (some "tok") "rt").expiresAt = 0 + 300 ∧
    (initTokenInfo 0 none "rt").expiresAt < 0 :=
  ⟨((c7_grace_window 0 (some "tok") "rt").1 rfl).1,
   (c7_grace_window 0 none "rt").2 rfl⟩

/-- C8: `update_tokens` overwrites exactly the supplied fields (unsupplied
token fields and all identity fields keep their previous values), performs
exactly one persist per call (the write log grows by exactly the new record),
and a second call with the same arguments leaves the record unchanged while
still performing exactly one additional write. -/
theorem c8_update_tokens (s : CredsMgrState) (a r : Option String) (e : Option Int) :
    ((updateTokens s a r e).creds.client_id = s.creds.client_id ∧
     (updateTokens s a r e).creds.client_secret = s.creds.client_secret ∧
     (updateTokens s a r e).creds.redirect_uri = s.creds.redirect_uri ∧
     (updateTokens s a r e).creds.device_name = s.creds.device_name) ∧
    (a = none → (updateTokens s a r e).creds.access_token = s.creds.access_token) ∧
    (∀ v, a = some v → (updateTokens s a r e).creds.access_token = some v) ∧
    (r = none → (updateTokens s a r e).creds.refresh_token = s.creds.refresh_token) ∧
    (∀ v, r = some v → (updateTokens s a r e).creds.refresh_token = some v) ∧
    (e = none → (updateTokens s a r e).creds.token_expires_at = s.creds.token_expires_at) ∧
    (∀ v, e = some v → (updateTokens s a r e).creds.token_expires_at = some v) ∧
    (updateTokens s a r e).writes = s.writes ++ [(updateTokens s a r e).creds] ∧
    (updateTokens (updateTokens s a r e) a r e).creds = (updateTokens s a r e).creds ∧
    (updateTokens (updateTokens s a r e) a r e).writes =
      (updateTokens s a r e).writes ++ [(updateTokens s a r e).creds] := by
  cases a <;> cases r <;> cases e <;>
    simp [updateTokens]

/-- Witness for C8 at a concrete state: updating only the access token keeps
the refresh token, appends exactly one write, and repeating the call changes
nothing but appends exactly one more identical write. -/
theorem c8_witness :
    (updateTokens { creds := fcW, writes := [] } (some "new-tok") none none).creds.refresh_token
        = fcW.refresh_token ∧
    (updateTokens { creds := fcW, writes := [] } (some "new-tok") none none).creds.access_token
        = some "new-tok" ∧
    (updateTokens (updateTokens { creds := fcW, writes := [] } (some "new-tok") none none)
        (some "new-tok") none none).creds
      = (updateTokens { creds := fcW, writes := [] } (some "new-tok") none none).creds :=
  ⟨(c8_update_tokens { creds := fcW, writes := [] } (some "new-tok") none none).2.2.2.1 rfl,
   (c8_update_tokens { creds := fcW, writes := [] } (some "new-tok") none none).2.2.1
     "new-tok" rfl,
   (c8_update_tokens { creds := fcW, writes := [] } (some "new-tok") none none).2.2.2.2.2.2.2.2.1⟩

/-- Every caught exception is converted into exactly one text content block. -/
theorem catchExns_error_singleton (e : PyExn) :
    ∃ c, catchExns (.error e) = some [c] := by
  cases e <;> exact ⟨_, rfl⟩

/-- A concrete external world used to instantiate the dispatch theorems: every
remote call succeeds, no playback session exists, the validate gate passes no
device, and the JSON parser accepts exactly the two-element example array. -/
def oracleA : Oracle :=
  { validateGate := .ok none,
    ensureUsernameGate := .ok (),
    currentUserPlayingTrackR := .ok none,
    startPlaybackR := .ok .none,
    currentPlaybackR := .ok none,
    pausePlaybackR := .ok .none,
    nextTrackR := .ok .none,
    addToQueueR := .ok .none,
    queueR := .ok (.str "queue"),
    searchR := .ok (.str "results"),
    getInfoR := .ok (.str "info"),
    currentUserPlaylistsR := .ok (.str "playlists"),
    playlistR := .ok (.str "playlist"),
    playlistAddItemsR := .ok .none,
    playlistRemoveItemsR := .ok .none,
    playlistChangeDetailsR := .ok .none,
    currentUserR := .ok (.str "user"),
    userPlaylistCreateR := .ok (.str "created"),
    parseTrack := id,
    parseTracks := id,
    parsePlaylist := id,
    parsePlaylists := id,
    jsonLoads := fun s =>
      if s = "[\"id1\",\"id2\"]" then .ok (.strlist ["id1", "id2"])
      else .error "Expecting value: line 1 column 1 (char 0)",
    defaultDeviceId := none }

/-- C1 (amended): for every tool invocation whose tool name carries the
`Spotify` prefix and — when the tool is `Playback` — whose action is one of
its four defined actions, dispatch returns exactly one content block (a JSON
payload or a short text), whatever the oracle answers: every internal
exception is converted at the dispatcher boundary.  (Without the prefix the
pre-`try` assertion raises to the transport, and `Playback` with any other
action falls through to an implicit `None`; see the counterexample.) -/
theorem c1_single_block (o : Oracle) (name : String) (args : Arguments)
    (hname : strTake name 7 = "Spotify")
    (hplay : strDrop name 7 = "Playback" →
      argGet args "action" = .str "get" ∨ argGet args "action" = .str "start" ∨
      argGet args "action" = .str "pause" ∨ argGet args "action" = .str "skip") :
    ∃ c, (handleCallTool o name args).1 = Except.ok (some [c]) := by
  unfold handleCallTool
  rw [if_pos hname]
  cases hT : (tryBody o (strDrop name 7) args).1 with
  | error e =>
    obtain ⟨c, hc⟩ := catchExns_error_singleton e
    exact ⟨c, by simp only [hT, hc]⟩
  | ok v =>
    obtain ⟨c, hc⟩ := okSingleton_tryBody o (strDrop name 7) args hplay v hT
    exact ⟨c, by simp only [hT, catchExns, hc]⟩

/-- Counterexample for C1 as stated: a tool name without the `Spotify` prefix
makes the pre-`try` assertion raise an `AssertionError` that propagates to
the transport as a raw fault — no content block is produced. -/
theorem c1_counterexample :
    handleCallTool oracleA "NotATool" (fun _ => Option.none) =
      (Except.error (PyExn.assertionError "Unknown tool: NotATool"), []) := by
  rfl

/-- The argument mapping `\x7b"action": "get"\x7d`. -/
def argsGetAction : Arguments :=
  fun k => if k = "action" then some (.str "get") else Option.none

/-- Witness for C1 at a concrete invocation: `SpotifyPlayback` with action
`get` produces exactly one content block. -/
theorem c1_witness :
    (strTake "SpotifyPlayback" 7 = "Spotify") ∧
    ∃ c, (handleCallTool oracleA "SpotifyPlayback" argsGetAction).1 =
      Except.ok (some [c]) :=
  ⟨by decide,
   c1_single_block oracleA "SpotifyPlayback" argsGetAction (by decide)
     (fun _ => Or.inl (by decide))⟩

/-- Reduction of the dispatcher at the literal tool name `SpotifyPlayback`. -/
theorem handleCallTool_playback (o : Oracle) (args : Arguments) :
    handleCallTool o "SpotifyPlayback" args =
      (Except.ok (catchExns (tryBody o "Playback" args).1),
       (tryBody o "Playback" args).2) := by
  unfold handleCallTool
  rw [if_pos (by decide : strTake "SpotifyPlayback" 7 = "Spotify"),
    (by decide : strDrop "SpotifyPlayback" 7 = "Playback")]

/-- Reduction of the dispatcher at the literal tool name `SpotifyPlaylist`. -/
theorem handleCallTool_playlist (o : Oracle) (args : Arguments) :
    handleCallTool o "SpotifyPlaylist" args =
      (Except.ok (catchExns (playlistBody o args).1), (playlistBody o args).2) := by
  unfold handleCallTool
  rw [if_pos (by decide : strTake "SpotifyPlaylist" 7 = "Spotify"),
    (by decide : strDrop "SpotifyPlaylist" 7 = "Playlist")]
  simp +decide only [tryBody, if_true, if_false]

/-- C4 (amended): for a playback start with no (falsy) uri: when a track is
actively playing the call is a success no-op — it returns after the single
state probe, issuing no remote start; when no current playback exists at all
it raises the validation `ValueError` after the two state probes, issuing no
remote start; and when a current track exists but is not playing (paused), a
remote start/resume request is issued and its outcome returned. -/
theorem c4_start_no_uri (o : Oracle) (device : Option Device) (uri : PyVal)
    (huri : pyTruthy uri = false) :
    (∀ p, o.currentUserPlayingTrackR = .ok (some p) →
        p.currentlyPlayingType = some "track" → p.isPlaying = some true →
        startPlaybackBody o uri device =
          (Except.ok PyVal.none, [RemoteCall.currentUserPlayingTrack])) ∧
    (o.currentUserPlayingTrackR = .ok Option.none →
        startPlaybackBody o uri device =
          (Except.error (.valueError "No track_id provided and no current playback to resume."),
           [RemoteCall.currentUserPlayingTrack, RemoteCall.currentUserPlayingTrack])) ∧
    (∀ p, o.currentUserPlayingTrackR = .ok (some p) →
        p.currentlyPlayingType = some "track" → p.isPlaying ≠ some true →
        uri = PyVal.none →
        startPlaybackBody o uri device =
          (o.startPlaybackR,
           [RemoteCall.currentUserPlayingTrack, RemoteCall.currentUserPlayingTrack,
            RemoteCall.startPlayback Option.none Option.none (pickDeviceId o device)])) := by
  refine ⟨?_, ?_, ?_⟩
  · intro p hp htype hplay
    simp [startPlaybackBody, huri, isTrackPlaying, getCurrentTrack, callRemote,
      M_bind_eq, M_pure_eq, hp, htype, hplay]
  · intro hp
    simp [startPlaybackBody, huri, isTrackPlaying, getCurrentTrack, callRemote,
      throwPy, M_bind_eq, M_pure_eq, hp]
  · intro p hp htype hplay hnone
    subst hnone
    simp [startPlaybackBody, huri, isTrackPlaying, getCurrentTrack,
      startPlaybackIssue, callRemote, M_bind_eq, M_pure_eq, hp, htype, hplay]

/-- External world for the C4 counterexample: a current track exists but is
paused (`is_playing = false`); every remote call succeeds. -/
def oracleC4 : Oracle :=
  { oracleA with
    currentUserPlayingTrackR := .ok (some
      { currentlyPlayingType := some "track", item := .str "track-item",
        isPlaying := some false }) }

/-- Counterexample for C4 as stated: with no uri and nothing currently playing
(`is_track_playing` reports false, the current track is paused), the start
call neither fails with a validation error nor stays local — it issues a
remote start/resume request and succeeds. -/
theorem c4_counterexample :
    (isTrackPlaying oracleC4).1 = Except.ok false ∧
    startPlaybackBody oracleC4 PyVal.none Option.none =
      (Except.ok PyVal.none,
       [RemoteCall.currentUserPlayingTrack, RemoteCall.currentUserPlayingTrack,
        RemoteCall.startPlayback Option.none Option.none Option.none]) := by
  decide

/-- Witness for C4 at a concrete world with no playback session: the start
call with no uri raises the validation error after two state probes and
issues no remote start. -/
theorem c4_witness :
    startPlaybackBody oracleA PyVal.none Option.none =
      (Except.error (.valueError "No track_id provided and no current playback to resume."),
       [RemoteCall.currentUserPlayingTrack, RemoteCall.currentUserPlayingTrack]) :=
  (c4_start_no_uri oracleA Option.none PyVal.none rfl).2.1 rfl

/-- C10: the remote pause request is issued only when a current playback state
exists and reports `is_playing = true`; and whenever nothing is playing (no
state, or a state that is not playing), the pause tool call issues no remote
pause — the trace holds only the state probe — and still returns the success
content block `Playback paused.`. -/
theorem c10_pause_frame (o : Oracle) (device : Option Device) :
    (∀ did, RemoteCall.pausePlayback did ∈ (pausePlaybackBody o device).2 →
        ∃ pb, o.currentPlaybackR = .ok (some pb) ∧ pb.isPlaying = some true) ∧
    (∀ (args : Arguments) (dev0 : Option Device),
        o.validateGate = .ok dev0 →
        argGet args "action" = .str "pause" →
        (o.currentPlaybackR = .ok Option.none ∨
          (∃ pb, o.currentPlaybackR = .ok (some pb) ∧ pb.isPlaying ≠ some true)) →
        handleCallTool o "SpotifyPlayback" args =
          (Except.ok (some [Content.text "Playback paused."]),
           [RemoteCall.currentPlayback])) := by
  constructor
  · intro did hmem
    rcases hcp : o.currentPlaybackR with e | pb0
    · simp [pausePlaybackBody, callRemote, M_bind_eq, hcp] at hmem
    · cases pb0 with
      | none => simp [pausePlaybackBody, callRemote, M_bind_eq, M_pure_eq, hcp] at hmem
      | some pb =>
        by_cases hb : pb.isPlaying = some true
        · exact ⟨pb, rfl, hb⟩
        · simp [pausePlaybackBody, callRemote, M_bind_eq, M_pure_eq, hcp, hb] at hmem
  · intro args dev0 hgate hact hnp
    rw [handleCallTool_playback]
    have hred : tryBody o "Playback" args =
        (do
          let _ ← clientPausePlayback o
          pure (some [Content.text "Playback paused."])) := by
      simp +decide only [tryBody, hact, if_true, if_false]
    rw [hred]
    rcases hnp with hcp | ⟨pb, hcp, hne⟩
    · simp [clientPausePlayback, pausePlaybackBody, liftExc, callRemote,
        M_bind_eq, M_pure_eq, hgate, hcp, catchExns]
    · simp [clientPausePlayback, pausePlaybackBody, liftExc, callRemote,
        M_bind_eq, M_pure_eq, hgate, hcp, hne, catchExns]

/-- The argument mapping `\x7b"action": "pause"\x7d`. -/
def argsPause : Arguments :=
  fun k => if k = "action" then some (.str "pause") else Option.none

/-- Witness for C10 at a concrete world with no playback state: the pause
tool call issues only the state probe and returns the success block. -/
theorem c10_witness :
    handleCallTool oracleA "SpotifyPlayback" argsPause =
      (Except.ok (some [Content.text "Playback paused."]),
       [RemoteCall.currentPlayback]) :=
  (c10_pause_frame oracleA Option.none).2 argsPause Option.none rfl (by decide)
    (Or.inl rfl)

/-- `argGet` after an update at the same key. -/
theorem argGet_updateArg_same (args : Arguments) (k : String) (v : PyVal) :
    argGet (updateArg args k v) k = v := by
  simp [argGet, updateArg]

/-- `argGet` after an update at a different key. -/
theorem argGet_updateArg_ne (args : Arguments) (k k2 : String) (v : PyVal)
    (h : k2 ≠ k) : argGet (updateArg args k v) k2 = argGet args k2 := by
  simp [argGet, updateArg, h]

/-- C9: for a playlist `add_tracks` or `remove_tracks` invocation whose
`track_ids` argument arrives as a string: if the string fails to parse as
JSON, the dispatcher returns the single validation-error content block and no
remote call is made (the trace is empty); if it parses as a JSON array of
strings, the invocation behaves exactly as if the corresponding list had been
supplied directly — the parsed list is dispatched onward. -/
theorem c9_track_ids_string (o : Oracle) (args : Arguments) (s : String)
    (hs : args "track_ids" = some (.str s))
    (hact : argGet args "action" = .str "add_tracks" ∨
      argGet args "action" = .str "remove_tracks") :
    (∀ m, o.jsonLoads s = .error m →
        handleCallTool o "SpotifyPlaylist" args =
          (Except.ok (some [Content.text
            "Error: track_ids must be a list or a valid JSON array."]), [])) ∧
    (∀ xs, o.jsonLoads s = .ok (.strlist xs) →
        handleCallTool o "SpotifyPlaylist" args =
          handleCallTool o "SpotifyPlaylist"
            (updateArg args "track_ids" (.strlist xs))) := by
  have e4 : argGet args "track_ids" = .str s := by simp [argGet, hs]
  constructor
  · intro m hjson
    rw [handleCallTool_playlist]
    rcases hact with ha | ha <;>
    · simp +decide only [playlistBody, ha, if_true, if_false]
      simp [e4, parseTrackIds, hjson, M_pure_eq, catchExns]
  · intro xs hxs
    rw [handleCallTool_playlist, handleCallTool_playlist]
    have e1 : argGet (updateArg args "track_ids" (.strlist xs)) "action"
        = argGet args "action" := argGet_updateArg_ne _ _ _ _ (by decide)
    have e2 : argGet (updateArg args "track_ids" (.strlist xs)) "playlist_id"
        = argGet args "playlist_id" := argGet_updateArg_ne _ _ _ _ (by decide)
    have e3 : argGet (updateArg args "track_ids" (.strlist xs)) "track_ids"
        = .strlist xs := argGet_updateArg_same _ _ _
    rcases hact with ha | ha <;>
      simp +decide [playlistBody, ha, e1, e2, e3, e4, parseTrackIds, hxs]

/-- Arguments of the C9 witness: `add_tracks` with `track_ids` supplied as the
JSON text of a two-element array. -/
def argsAddTracks : Arguments := fun k =>
  if k = "action" then some (.str "add_tracks")
  else if k = "track_ids" then some (.str "[\"id1\",\"id2\"]")
  else if k = "playlist_id" then some (.str "pl1")
  else Option.none

/-- Arguments of the C9 witness: `add_tracks` with a non-JSON `track_ids`. -/
def argsAddTracksBad : Arguments := fun k =>
  if k = "action" then some (.str "add_tracks")
  else if k = "track_ids" then some (.str "not-json")
  else if k = "playlist_id" then some (.str "pl1")
  else Option.none

/-- Witness for C9 at concrete invocations: the non-JSON string returns the
validation-error block with an empty trace, and the two-element array string
behaves exactly as the two-element list supplied directly. -/
theorem c9_witness :
    handleCallTool oracleA "SpotifyPlaylist" argsAddTracksBad =
      (Except.ok (some [Content.text
        "Error: track_ids must be a list or a valid JSON array."]), []) ∧
    handleCallTool oracleA "SpotifyPlaylist" argsAddTracks =
      handleCallTool oracleA "SpotifyPlaylist"
        (updateArg argsAddTracks "track_ids" (.strlist ["id1", "id2"])) :=
  ⟨(c9_track_ids_string oracleA argsAddTracksBad "not-json" (by decide)
      (Or.inl (by decide))).1 "Expecting value: line 1 column 1 (char 0)" (by decide),
   (c9_track_ids_string oracleA argsAddTracks "[\"id1\",\"id2\"]" (by decide)
      (Or.inl (by decide))).2 ["id1", "id2"] (by decide)⟩

end SpotifyMcp
